import Mathlib

/-!
Verification development for the Automated Customer Support Email Agent
(Python repository `support_agent`).  The data model and the operations of
the agent core are shallowly embedded: pure Python functions become Lean
functions, stateful orchestration becomes explicit state passing, Python
floats become rationals, and fallible code returns `Except` (an `Except.error`
models an uncaught Python exception).  External collaborators (the model
backend, the embedding backend, the SQL vector store, the database session)
are parameters of the embedding, exactly as the spec treats them.
-/

namespace SupportAgent

/-- Model of a parsed JSON value (the result of `json.loads`).  Numbers are
rationals, objects are ordered association lists, as CPython dicts preserve
insertion order. -/
inductive Json where
  | null : Json
  | bool (b : Bool) : Json
  | num (q : ℚ) : Json
  | str (s : String) : Json
  | arr (elems : List Json) : Json
  | obj (fields : List (String × Json)) : Json

/-- Lookup of a key in a JSON object field list (first match). -/
def objLookup : List (String × Json) → String → Option Json
  | [], _ => none
  | (k, v) :: rest, key => if k = key then some v else objLookup rest key

/-- Model of Python `dict.get(key, default)` on a parsed JSON object.  On a
non-object the embedding never calls it through this helper. -/
def Json.getD (j : Json) (key : String) (dflt : Json) : Json :=
  match j with
  | Json.obj fields => (objLookup fields key).getD dflt
  | _ => dflt

/-- Whether the JSON value is an object (a Python dict after `json.loads`). -/
def Json.isObj : Json → Bool
  | Json.obj _ => true
  | _ => false

/-- Model of Python truthiness `bool(x)` on a parsed JSON value. -/
def Json.truthy : Json → Bool
  | Json.null => false
  | Json.bool b => b
  | Json.num q => decide (q ≠ 0)
  | Json.str s => decide (s ≠ "")
  | Json.arr elems => !elems.isEmpty
  | Json.obj fields => !fields.isEmpty

/-- A single-quote character as a string, used to spell Python message
literals that contain quotes. -/
def sq : String := String.singleton (Char.ofNat 39)

/-- Rendering of a parsed JSON value as Python text.  Only the string case is
observed by any theorem below; the rendering of containers and numbers
abstracts the exact Python `str()` output. -/
def Json.pyStr : Json → String
  | Json.str s => s
  | Json.num q => toString q
  | Json.bool b => if b then "True" else "False"
  | Json.null => "None"
  | Json.arr _ => ""
  | Json.obj _ => ""

/-- Projection of a JSON array of strings to a Lean string list, used only to
type the `suggested_tools` field of a classification (the Python dataclass
annotates it `list[str]`; no theorem below observes a non-string payload). -/
def Json.toStrList : Json → List String
  | Json.arr elems => elems.filterMap (fun e => match e with
      | Json.str s => some s
      | _ => none)
  | _ => []

/-! ## Classifier data model (`agent/classifier.py`) -/

/-- Customer email intent categories (`class Intent`). -/
inductive Intent where
  | order_status
  | shipping_tracking
  | return_request
  | refund_request
  | product_question
  | policy_question
  | complaint
  | general_inquiry
  | escalation_request
deriving DecidableEq, Repr

/-- The string value of each `Intent` member. -/
def Intent.value : Intent → String
  | Intent.order_status => "order_status"
  | Intent.shipping_tracking => "shipping_tracking"
  | Intent.return_request => "return_request"
  | Intent.refund_request => "refund_request"
  | Intent.product_question => "product_question"
  | Intent.policy_question => "policy_question"
  | Intent.complaint => "complaint"
  | Intent.general_inquiry => "general_inquiry"
  | Intent.escalation_request => "escalation_request"

/-- Model of the enum constructor `Intent(x)`: the member with the given
string value, or `none` when `Intent(x)` would raise `ValueError`. -/
def Intent.fromString (s : String) : Option Intent :=
  if s = "order_status" then some Intent.order_status
  else if s = "shipping_tracking" then some Intent.shipping_tracking
  else if s = "return_request" then some Intent.return_request
  else if s = "refund_request" then some Intent.refund_request
  else if s = "product_question" then some Intent.product_question
  else if s = "policy_question" then some Intent.policy_question
  else if s = "complaint" then some Intent.complaint
  else if s = "general_inquiry" then some Intent.general_inquiry
  else if s = "escalation_request" then some Intent.escalation_request
  else none

/-- Query complexity levels for tiered routing (`class Complexity`). -/
inductive Complexity where
  | simple
  | medium
  | complex
deriving DecidableEq, Repr

/-- The string value of each `Complexity` member. -/
def Complexity.value : Complexity → String
  | Complexity.simple => "simple"
  | Complexity.medium => "medium"
  | Complexity.complex => "complex"

/-- Model of the enum constructor `Complexity(x)`: `none` models the
`ValueError` raised on an unknown value. -/
def Complexity.fromString (s : String) : Option Complexity :=
  if s = "simple" then some Complexity.simple
  else if s = "medium" then some Complexity.medium
  else if s = "complex" then some Complexity.complex
  else none

/-- Result from intent classification (`@dataclass ClassificationResult`). -/
structure ClassificationResult where
  intent : Intent
  complexity : Complexity
  confidence : ℚ
  requires_order_lookup : Bool
  requires_knowledge_base : Bool
  suggested_tools : List String
  reasoning : String
deriving DecidableEq, Repr

/-- The fallback classification built in the `json.JSONDecodeError` branch of
`IntentClassifier.classify`. -/
def defaultClassification : ClassificationResult :=
  { intent := Intent.general_inquiry
    complexity := Complexity.medium
    confidence := Rat.divInt 1 2
    requires_order_lookup := false
    requires_knowledge_base := true
    suggested_tools := ["search_knowledge_base"]
    reasoning := "Failed to parse classification, defaulting to general inquiry" }

/-- Model of the enum conversion `Intent(result.get("intent", "general_inquiry"))`
applied to the JSON value found at the key: a non-string or out-of-enumeration
value raises `ValueError`. -/
def intentOfJson (j : Json) : Except String Intent :=
  match j with
  | Json.str s =>
    match Intent.fromString s with
    | some i => Except.ok i
    | none => Except.error ("ValueError: " ++ sq ++ s ++ sq ++ " is not a valid Intent")
  | _ => Except.error "ValueError: not a valid Intent"

/-- Model of `Complexity(result.get("complexity", "medium"))`. -/
def complexityOfJson (j : Json) : Except String Complexity :=
  match j with
  | Json.str s =>
    match Complexity.fromString s with
    | some c => Except.ok c
    | none => Except.error ("ValueError: " ++ sq ++ s ++ sq ++ " is not a valid Complexity")
  | _ => Except.error "ValueError: not a valid Complexity"

/-- Model of `float(result.get("confidence", 0.8))`: Python `float()` accepts
numbers and booleans; on other payloads it raises (numeric strings are not
modelled, no theorem below depends on them). -/
def floatOfJson (j : Json) : Except String ℚ :=
  match j with
  | Json.num q => Except.ok q
  | Json.bool b => Except.ok (if b then 1 else 0)
  | _ => Except.error "ValueError: could not convert to float"

/-- Embedding of the tail of `IntentClassifier.classify` (`classifier.py`,
lines 128-160), parameterised by the outcome of `json.loads` on the
(code-fence-stripped) model response: `none` models `json.JSONDecodeError`,
`some j` a successfully parsed value.  An `Except.error` models an uncaught
Python exception propagating out of `classify`. -/
def classify (parsed : Option Json) : Except String ClassificationResult :=
  match parsed with
  | none => Except.ok defaultClassification
  | some result => do
    let intent ← intentOfJson (result.getD "intent" (Json.str "general_inquiry"))
    let complexity ← complexityOfJson (result.getD "complexity" (Json.str "medium"))
    let confidence ← floatOfJson (result.getD "confidence" (Json.num (Rat.divInt 4 5)))
    Except.ok
      { intent := intent
        complexity := complexity
        confidence := confidence
        requires_order_lookup := (result.getD "requires_order_lookup" (Json.bool false)).truthy
        requires_knowledge_base := (result.getD "requires_knowledge_base" (Json.bool true)).truthy
        suggested_tools := (result.getD "suggested_tools"
          (Json.arr [Json.str "search_knowledge_base"])).toStrList
        reasoning := (result.getD "reasoning" (Json.str "")).pyStr }

/-- Embedding of `IntentClassifier.should_escalate` (`classifier.py`,
lines 162-178). -/
def should_escalate (classification : ClassificationResult) : Bool :=
  if classification.intent = Intent.escalation_request then true
  else if classification.intent = Intent.complaint ∧
      classification.complexity = Complexity.complex then true
  else if classification.confidence < Rat.divInt 1 2 then true
  else false

/-! ## Model router (`agent/router.py`) -/

/-- Configuration for a specific model tier (`@dataclass ModelConfig`). -/
structure ModelConfig where
  model : String
  max_tokens : ℕ
  temperature : ℚ
  description : String
deriving DecidableEq, Repr

/-- The model identifiers drawn from application settings (`config.py`). -/
structure ModelSettings where
  simple_model : String
  medium_model : String
  complex_model : String

/-- The three-tier table built in `ModelRouter.__init__` (`self.tiers`). -/
def mkTiers (st : ModelSettings) : Complexity → ModelConfig
  | Complexity.simple =>
    { model := st.simple_model, max_tokens := 500, temperature := Rat.divInt 3 10
      description := "Fast model for simple lookups and FAQ responses" }
  | Complexity.medium =>
    { model := st.medium_model, max_tokens := 1000, temperature := Rat.divInt 1 2
      description := "Balanced model for moderate complexity queries" }
  | Complexity.complex =>
    { model := st.complex_model, max_tokens := 2000, temperature := Rat.divInt 7 10
      description := "Advanced model for complex reasoning and escalations" }

/-- The intent-based override table built in `ModelRouter.__init__`
(`self.intent_overrides`). -/
def intentOverride : Intent → Option Complexity
  | Intent.complaint => some Complexity.complex
  | Intent.refund_request => some Complexity.complex
  | Intent.escalation_request => some Complexity.complex
  | _ => none

/-- Embedding of `ModelRouter._complexity_rank` (`ranks.get(complexity, 2)`;
the default is unreachable since `Complexity` is exhaustive). -/
def complexity_rank : Complexity → ℕ
  | Complexity.simple => 1
  | Complexity.medium => 2
  | Complexity.complex => 3

/-- The effective complexity computed by `ModelRouter.get_model_config`
before indexing the tier table: the intent override is applied only when it
strictly raises the rank.  (`if intent and intent in self.intent_overrides`
uses Python truthiness; every `Intent` member is a non-empty string, hence
truthy, so only `None` falls to the else-branch.) -/
def routedComplexity (complexity : Complexity) (intent : Option Intent) : Complexity :=
  match intent with
  | some i =>
    match intentOverride i with
    | some eff =>
      if complexity_rank eff > complexity_rank complexity then eff else complexity
    | none => complexity
  | none => complexity

/-- Embedding of `ModelRouter.get_model_config` (`router.py`, lines 55-92). -/
def get_model_config (st : ModelSettings) (complexity : Complexity)
    (intent : Option Intent) : ModelConfig :=
  mkTiers st (routedComplexity complexity intent)

/-! ## RAG retrieval (`services/rag.py`) -/

/-- Result from RAG knowledge base search (`@dataclass RAGResult`). -/
structure RAGResult where
  id : String
  content : String
  category : String
  title : Option String
  score : ℚ
  metadata : Json

/-- Embedding of `RAGService.search_with_threshold` (`rag.py`, lines 114-136),
parameterised by `RAGService.search` (whose body is an SQL vector-similarity
query against the external store) and by
`settings.rag_similarity_threshold`. -/
def search_with_threshold
    (search : String → Option String → Option ℕ → List RAGResult)
    (rag_similarity_threshold : ℚ)
    (query : String) (category : Option String)
    (threshold : Option ℚ) (limit : Option ℕ) : List RAGResult :=
  let t := threshold.getD rag_similarity_threshold
  (search query category limit).filter (fun r => t ≤ r.score)

/-! ## Tool envelope and registry (`agent/tools/base.py`) -/

/-- Result from tool execution (`@dataclass ToolResult`).  `data` is an
arbitrary JSON-shaped payload; `none` models Python `None`. -/
structure ToolResult where
  success : Bool
  data : Option Json
  error : Option String

/-- Embedding of `ToolResult.to_dict`: `data` is included when not `None`,
`error` when truthy (a present empty string is falsy and omitted). -/
def ToolResult.to_dict (r : ToolResult) : Json :=
  Json.obj ([("success", Json.bool r.success)]
    ++ (match r.data with
        | some d => [("data", d)]
        | none => [])
    ++ (match r.error with
        | some e => if e = "" then [] else [("error", Json.str e)]
        | none => []))

/-- A registered tool behaviour: from the keyword-argument object to a
`ToolResult`.  An `Except.error` models an exception escaping the tool call
(the concrete tools wrap their bodies in try/except, but Python raises
`TypeError` at argument-binding time when required parameters are missing,
and that happens before the body runs and is not caught). -/
abbrev Tool := Json → Except String ToolResult

/-- The tool registry: an insertion-ordered name-to-tool mapping, as a CPython
dict (`ToolRegistry._tools`). -/
abbrev ToolRegistry := List (String × Tool)

/-- Embedding of `ToolRegistry.register`: dict assignment by tool name
(overwrite in place, or append). -/
def ToolRegistry.register (reg : ToolRegistry) (name : String) (t : Tool) : ToolRegistry :=
  if (reg.map Prod.fst).contains name then
    reg.map (fun p => if p.1 == name then (p.1, t) else p)
  else
    reg ++ [(name, t)]

/-- Embedding of `ToolRegistry.get`: `self._tools.get(name)`. -/
def ToolRegistry.get (reg : ToolRegistry) (name : String) : Option Tool :=
  (reg.find? (fun p => p.1 == name)).map Prod.snd

/-- Embedding of `ToolRegistry.execute` (`base.py`, lines 102-115). -/
def ToolRegistry.execute (reg : ToolRegistry) (name : String) (kwargs : Json) :
    Except String ToolResult :=
  match ToolRegistry.get reg name with
  | none => Except.ok
      { success := false, data := none
        error := some ("Tool " ++ sq ++ name ++ sq ++ " not found") }
  | some t => t kwargs

/-! ## Escalation tool (`agent/tools/escalation.py`) -/

/-- Environment of one `EscalateToHumanTool.execute` call: the wall-clock
timestamp string and the database session.  `db = none` models a tool built
without a session (`if self.db:` falsy); `some (Except.ok eid)` a successful
`flush` assigning id `eid`; `some (Except.error e)` an exception raised by
the persistence write (caught by the try/except of the tool body). -/
structure EscalationDbEnv where
  now : String
  db : Option (Except String String)

/-- The confirmation message built by `EscalateToHumanTool.execute`. -/
def escalationMessage (priority : String) : String :=
  "Your request has been escalated to our support team. A human agent will review your case with "
    ++ priority ++ " priority and respond within 24 hours."

/-- Embedding of the body of `EscalateToHumanTool.execute` after argument
binding (`escalation.py`, lines 54-115). -/
def escalateRun (env : EscalationDbEnv)
    (reason priority customer_email summary : String)
    (_interaction_id : Option String) : ToolResult :=
  let base := [("reason", Json.str reason), ("priority", Json.str priority),
    ("customer_email", Json.str customer_email), ("summary", Json.str summary),
    ("created_at", Json.str env.now)]
  match env.db with
  | some (Except.error e) =>
    { success := false, data := none
      error := some ("Failed to create escalation: " ++ e) }
  | some (Except.ok eid) =>
    { success := true
      data := some (Json.obj [("escalated", Json.bool true),
        ("escalation", Json.obj (base ++ [("id", Json.str eid)])),
        ("message", Json.str (escalationMessage priority))])
      error := none }
  | none =>
    { success := true
      data := some (Json.obj [("escalated", Json.bool true),
        ("escalation", Json.obj base),
        ("message", Json.str (escalationMessage priority))])
      error := none }

/-- Keyword-argument binder for `EscalateToHumanTool.execute(reason, priority,
customer_email, summary, interaction_id=None, **kwargs)`: a missing required
keyword raises `TypeError` at call time (not caught by the tool body).
Non-string argument values are rendered with `Json.pyStr`; no theorem below
observes them. -/
def escalateToHumanTool (env : EscalationDbEnv) : Tool := fun kwargs =>
  match kwargs with
  | Json.obj fields =>
    match objLookup fields "reason", objLookup fields "priority",
        objLookup fields "customer_email", objLookup fields "summary" with
    | some r, some p, some c, some s =>
      Except.ok (escalateRun env r.pyStr p.pyStr c.pyStr s.pyStr
        (match objLookup fields "interaction_id" with
         | some Json.null => none
         | some v => some v.pyStr
         | none => none))
    | _, _, _, _ => Except.error "TypeError: missing required argument"
  | _ => Except.error "TypeError: keyword arguments must be a mapping"

/-! ## Mock Shopify order lookup (`integrations/shopify/mock.py`) -/

/-- Order data model (`@dataclass Order`); also stands for one row of the
backing `sample_orders.json` file, whose extra structure (`line_items`,
`shipping_address`, `fulfillment`) is carried as JSON. -/
structure Order where
  id : String
  order_number : String
  customer_email : String
  customer_name : String
  status : String
  created_at : String
  total_price : String
  currency : String
  line_items : List Json
  shipping_address : Json
  fulfillment : Option Json

/-- Model of Python `s.lstrip("#")`: drop every leading `#`. -/
def pyLstripHash (s : String) : String :=
  String.mk (s.data.dropWhile (fun c => c = '#'))

/-- Model of Python `s.strip()`: drop leading and trailing whitespace. -/
def pyStrip (s : String) : String :=
  String.mk (((s.data.dropWhile Char.isWhitespace).reverse.dropWhile
    Char.isWhitespace).reverse)

/-- Embedding of `MockShopifyClient._normalize_order_number`:
`order_number.lstrip("#").strip()`. -/
def normalize_order_number (order_number : String) : String :=
  pyStrip (pyLstripHash order_number)

/-- Embedding of `MockShopifyClient.get_order` (`mock.py`, lines 70-99),
parameterised by the loaded order list: the first order whose normalised
order number equals the normalised argument. -/
def get_order (orders : List Order) (order_number : String) : Option Order :=
  let normalized := normalize_order_number order_number
  orders.find? (fun o => normalize_order_number o.order_number == normalized)

/-! ## Agent orchestrator (`agent/core.py`)

The orchestration loop of `SupportAgent.process_email` is embedded as a
fuel-indexed recursion over an explicit loop state.  The model backend is an
oracle `chat : ℕ → ChatResponse` giving the response to the i-th
chat-completion call of the run; the service-backed tool behaviours and the
database session are environment parameters.  The embedding returns a
`RunTrace`: the instrumented count of chat-completion calls, the ordered
record of executed tool calls, and the run result (`Except.error` models an
uncaught Python exception). -/

/-- A tool invocation requested by the model backend.  `arguments` is the
outcome of `json.loads(tool_call.function.arguments)`: `none` models
`json.JSONDecodeError` (the code then substitutes an empty dict). -/
structure ToolCall where
  id : String
  name : String
  arguments : Option Json

/-- The assistant message of a chat-completion response; an empty
`tool_calls` list models the falsy `None`-or-empty case. -/
structure ChatMessage where
  content : Option String
  tool_calls : List ToolCall

/-- Token usage attached to a chat-completion response. -/
structure ChatUsage where
  prompt_tokens : ℕ
  completion_tokens : ℕ

/-- One chat-completion response from the model backend. -/
structure ChatResponse where
  message : ChatMessage
  usage : Option ChatUsage

/-- A message of the conversation transcript built by the loop. -/
inductive ChatMsg where
  | system (content : String)
  | user (content : String)
  | assistant (content : String) (tool_calls : List ToolCall)
  | tool (tool_call_id : String) (content : Json)

/-- Instrumentation record of one executed tool call: the tool name, the
keyword-argument object passed, and the returned `ToolResult`. -/
structure ExecRecord where
  tool : String
  args : Json
  result : ToolResult

/-- External environment of one `process_email` run. -/
structure AgentEnv where
  settings : ModelSettings
  systemPrompt : String
  emailContext : String → String → String → Option String → String
  chat : ℕ → ChatResponse
  kbTool : Tool
  orderTool : Tool
  fulfillmentTool : Tool
  customerOrdersTool : Tool
  escEnv : EscalationDbEnv

/-- The registry built by `SupportAgent._register_tools`, in registration
order. -/
def mkAgentRegistry (env : AgentEnv) : ToolRegistry :=
  ToolRegistry.register
    (ToolRegistry.register
      (ToolRegistry.register
        (ToolRegistry.register
          (ToolRegistry.register ([] : ToolRegistry) "search_knowledge_base" env.kbTool)
          "get_order" env.orderTool)
        "get_fulfillment" env.fulfillmentTool)
      "get_customer_orders" env.customerOrdersTool)
    "escalate_to_human" (escalateToHumanTool env.escEnv)

/-- Mutable state of the orchestration loop (`messages`, `tools_used`,
`tool_results`, the cumulative token counters) plus the instrumented
`executed` record and chat-call counter. -/
structure LoopState where
  messages : List ChatMsg
  tools_used : List String
  tool_results : List Json
  executed : List ExecRecord
  tokens_in : ℕ
  tokens_out : ℕ
  chatCalls : ℕ

/-- Payload of the early return taken when an executed `escalate_to_human`
call succeeds inside the loop. -/
structure EscalationReturn where
  text : String
  reason : String

/-- Outcome of executing one batch of requested tool calls. -/
inductive BatchSignal where
  | next
  | escalated (e : EscalationReturn)
  | crashed (msg : String)

/-- The fallback text used when the model returns no content. -/
def noResponseMessage : String := "I apologize, I was unable to generate a response."

/-- The fixed fallback message emitted when the iteration bound is exhausted. -/
def exhaustedMessage : String :=
  "I apologize, but I" ++ sq
    ++ "m having difficulty processing your request. Your inquiry has been forwarded to our support team for assistance."

/-- The fixed fallback message of `_handle_immediate_escalation` when the
escalation tool reports failure. -/
def escalatedFallbackMessage : String :=
  "Your request has been escalated to our support team."

/-- State update for `tools_used.append(tool_name)`. -/
def noteToolName (st : LoopState) (name : String) : LoopState :=
  { st with tools_used := st.tools_used ++ [name] }

/-- State update appending the `tool_results` entry and the instrumentation
record of one executed tool call. -/
def noteToolResult (st : LoopState) (name : String) (args : Json)
    (result : ToolResult) : LoopState :=
  { st with
    tool_results := st.tool_results ++ [Json.obj [("tool", Json.str name),
      ("args", args), ("result", result.to_dict)]]
    executed := st.executed ++ [⟨name, args, result⟩] }

/-- State update appending the tool-turn transcript message. -/
def noteToolMessage (st : LoopState) (tool_call_id : String)
    (result : ToolResult) : LoopState :=
  { st with messages := st.messages ++ [ChatMsg.tool tool_call_id result.to_dict] }

/-- Embedding of the tool-executing phase of `SupportAgent.process_email`
(`core.py`, lines 199-236): execute each requested tool call in order,
returning early when an executed `escalate_to_human` call succeeds. -/
def runBatch (reg : ToolRegistry) : List ToolCall → LoopState → LoopState × BatchSignal
  | [], st => (st, BatchSignal.next)
  | tc :: rest, st =>
    match tc.arguments.getD (Json.obj []) with
    | Json.obj fields =>
      match reg.execute tc.name (Json.obj fields) with
      | Except.error e => (noteToolName st tc.name, BatchSignal.crashed e)
      | Except.ok result =>
        if tc.name = "escalate_to_human" ∧ result.success = true then
          match result.data with
          | some (Json.obj dataFields) =>
            (noteToolResult (noteToolName st tc.name) tc.name (Json.obj fields) result,
             BatchSignal.escalated
              { text := ((objLookup dataFields "message").getD
                  (Json.str "Escalated to human agent.")).pyStr
                reason := ((objLookup fields "reason").getD
                  (Json.str "Agent escalation")).pyStr })
          | _ =>
            (noteToolResult (noteToolName st tc.name) tc.name (Json.obj fields) result,
             BatchSignal.crashed "AttributeError: data has no attribute get")
        else
          runBatch reg rest
            (noteToolMessage
              (noteToolResult (noteToolName st tc.name) tc.name (Json.obj fields) result)
              tc.id result)
    | _ =>
      (noteToolName st tc.name,
       BatchSignal.crashed "TypeError: argument after unpacking must be a mapping")

/-- Outcome of the bounded orchestration loop. -/
inductive LoopOutcome where
  | finalText (text : String)
  | escalatedVia (e : EscalationReturn)
  | exhausted
  | crashed (msg : String)

/-- State update for one chat-completion call: bump the call counter and
accumulate token usage (`if response.usage:` skips a `None` usage). -/
def trackUsage (st : LoopState) (response : ChatResponse) : LoopState :=
  { st with
    chatCalls := st.chatCalls + 1
    tokens_in := st.tokens_in +
      (match response.usage with | some u => u.prompt_tokens | none => 0)
    tokens_out := st.tokens_out +
      (match response.usage with | some u => u.completion_tokens | none => 0) }

/-- State update appending the assistant-turn transcript record of a
tool-call request (`assistant_message.content or ""`). -/
def noteAssistant (st : LoopState) (am : ChatMessage) : LoopState :=
  { st with messages := st.messages ++
      [ChatMsg.assistant (am.content.getD "") am.tool_calls] }

/-- The final answer text `assistant_message.content or "I apologize, ..."`
(an empty string is falsy in Python). -/
def contentOrDefault : Option String → String
  | some s => if s = "" then noResponseMessage else s
  | none => noResponseMessage

/-- Embedding of the `for iteration in range(max_iterations)` loop of
`SupportAgent.process_email` (`core.py`, lines 157-246), with the remaining
iteration count as fuel (fuel 0 is the for-else exhaustion branch). -/
def agentLoop (env : AgentEnv) (reg : ToolRegistry) : ℕ → LoopState → LoopState × LoopOutcome
  | 0, st => (st, LoopOutcome.exhausted)
  | fuel + 1, st =>
    if ((env.chat st.chatCalls).message.tool_calls).isEmpty then
      (trackUsage st (env.chat st.chatCalls),
       LoopOutcome.finalText (contentOrDefault (env.chat st.chatCalls).message.content))
    else
      match runBatch reg (env.chat st.chatCalls).message.tool_calls
          (noteAssistant (trackUsage st (env.chat st.chatCalls))
            (env.chat st.chatCalls).message) with
      | (st3, BatchSignal.next) => agentLoop env reg fuel st3
      | (st3, BatchSignal.escalated e) => (st3, LoopOutcome.escalatedVia e)
      | (st3, BatchSignal.crashed m) => (st3, LoopOutcome.crashed m)

/-- Response from the support agent (`@dataclass AgentResponse`); the
wall-clock field `response_time_ms` is not modelled. -/
structure AgentResponse where
  response_text : String
  classification : ClassificationResult
  tools_used : List String
  tool_results : List Json
  model_used : String
  tokens_input : ℕ
  tokens_output : ℕ
  escalated : Bool
  escalation_reason : Option String

/-- Instrumented outcome of one `process_email` run. -/
structure RunTrace where
  chatCalls : ℕ
  executed : List ExecRecord
  result : Except String AgentResponse

/-- The loop state seeded in steps 3-4 of `process_email`: the system prompt
and the email-context user turn, with empty accumulators. -/
def loopInitState (env : AgentEnv) (subject body sender_email : String)
    (sender_name : Option String) : LoopState :=
  { messages := [ChatMsg.system env.systemPrompt,
      ChatMsg.user (env.emailContext subject body sender_email sender_name)]
    tools_used := []
    tool_results := []
    executed := []
    tokens_in := 0
    tokens_out := 0
    chatCalls := 0 }

/-- The keyword arguments passed to `escalate_to_human` by
`SupportAgent._handle_immediate_escalation` (`core.py`, lines 259-284). -/
def immediateEscalationArgs (classification : ClassificationResult)
    (sender_email subject body : String) : Json :=
  Json.obj [("reason", Json.str ("Immediate escalation: " ++ classification.intent.value)),
    ("priority", Json.str
      (if classification.intent.value = "complaint" then "high" else "medium")),
    ("customer_email", Json.str sender_email),
    ("summary", Json.str ("Subject: " ++ subject ++ "\n\nBody: " ++ body.take 500))]

/-- Embedding of `SupportAgent.process_email` (`core.py`, lines 87-257),
taking the classification produced for the email (step 1) as a parameter.
The immediate-escalation branch inlines `_handle_immediate_escalation`:
`escalation_result` is `result.data` on tool success and the fixed fallback
dict on failure, and `response_text` is `escalation_result["message"]`
(`KeyError`/`TypeError` on a shape that lacks it). -/
def process_email (env : AgentEnv) (classification : ClassificationResult)
    (subject body sender_email : String) (sender_name : Option String) : RunTrace :=
  if should_escalate classification then
    let args := immediateEscalationArgs classification sender_email subject body
    match escalateToHumanTool env.escEnv args with
    | Except.error e => { chatCalls := 0, executed := [], result := Except.error e }
    | Except.ok result =>
      let escalation_result :=
        if result.success then
          match result.data with
          | some d => d
          | none => Json.null
        else Json.obj [("message", Json.str escalatedFallbackMessage)]
      { chatCalls := 0
        executed := [⟨"escalate_to_human", args, result⟩]
        result :=
          match escalation_result with
          | Json.obj fields =>
            match objLookup fields "message" with
            | some v => Except.ok
                { response_text := v.pyStr
                  classification := classification
                  tools_used := ["escalate_to_human"]
                  tool_results := [escalation_result]
                  model_used := "none"
                  tokens_input := 0
                  tokens_output := 0
                  escalated := true
                  escalation_reason := some classification.reasoning }
            | none => Except.error "KeyError: message"
          | _ => Except.error "TypeError: object is not subscriptable" }
  else
    match agentLoop env (mkAgentRegistry env) 5
        (loopInitState env subject body sender_email sender_name) with
    | (st, LoopOutcome.finalText t) =>
      { chatCalls := st.chatCalls, executed := st.executed
        result := Except.ok
          { response_text := t
            classification := classification
            tools_used := st.tools_used
            tool_results := st.tool_results
            model_used := (get_model_config env.settings classification.complexity
              (some classification.intent)).model
            tokens_input := st.tokens_in
            tokens_output := st.tokens_out
            escalated := false
            escalation_reason := none } }
    | (st, LoopOutcome.exhausted) =>
      { chatCalls := st.chatCalls, executed := st.executed
        result := Except.ok
          { response_text := exhaustedMessage
            classification := classification
            tools_used := st.tools_used
            tool_results := st.tool_results
            model_used := (get_model_config env.settings classification.complexity
              (some classification.intent)).model
            tokens_input := st.tokens_in
            tokens_output := st.tokens_out
            escalated := false
            escalation_reason := none } }
    | (st, LoopOutcome.escalatedVia e) =>
      { chatCalls := st.chatCalls, executed := st.executed
        result := Except.ok
          { response_text := e.text
            classification := classification
            tools_used := st.tools_used
            tool_results := st.tool_results
            model_used := (get_model_config env.settings classification.complexity
              (some classification.intent)).model
            tokens_input := st.tokens_in
            tokens_output := st.tokens_out
            escalated := true
            escalation_reason := some e.reason } }
    | (st, LoopOutcome.crashed m) =>
      { chatCalls := st.chatCalls, executed := st.executed
        result := Except.error m }

/-- Whether an executed tool call was a successful `escalate_to_human`
invocation. -/
def isSuccEsc (rec : ExecRecord) : Bool :=
  rec.tool == "escalate_to_human" && rec.result.success

/-- Invariant relating a batch execution outcome to the executed-call
record: a successful escalation is always the final executed call. -/
def batchInv (p : LoopState × BatchSignal) : Prop :=
  match p.2 with
  | BatchSignal.escalated _ =>
    ∃ pre lastRec, p.1.executed = pre ++ [lastRec] ∧
      (∀ rec ∈ pre, isSuccEsc rec = false) ∧ isSuccEsc lastRec = true
  | _ => ∀ rec ∈ p.1.executed, isSuccEsc rec = false

/-- Invariant relating a loop outcome to the executed-call record. -/
def loopInv (p : LoopState × LoopOutcome) : Prop :=
  match p.2 with
  | LoopOutcome.escalatedVia _ =>
    ∃ pre lastRec, p.1.executed = pre ++ [lastRec] ∧
      (∀ rec ∈ pre, isSuccEsc rec = false) ∧ isSuccEsc lastRec = true
  | _ => ∀ rec ∈ p.1.executed, isSuccEsc rec = false

/-! ## Concrete fixtures used by witnesses -/

/-- A settings instance with the default tier models of `config.py`. -/
def testSettings : ModelSettings :=
  { simple_model := "gpt-4o-mini", medium_model := "gpt-4o-mini", complex_model := "gpt-4o" }

/-- A service-backed tool behaviour that always reports success. -/
def okTool : Tool := fun _ => Except.ok { success := true, data := some (Json.obj []), error := none }

/-- An escalation environment whose persistence write succeeds. -/
def escEnvOk : EscalationDbEnv :=
  { now := "2026-10-12T00:00:00+00:00", db := some (Except.ok "esc-1") }

/-- An escalation environment whose persistence write raises. -/
def escEnvFail : EscalationDbEnv :=
  { now := "2026-10-12T00:00:00+00:00", db := some (Except.error "db down") }

/-- A model response requesting one `get_order` tool call. -/
def orderCallResponse : ChatResponse :=
  { message :=
      { content := none
        tool_calls := [ToolCall.mk "call-1" "get_order"
          (some (Json.obj [("order_number", Json.str "12345")]))] }
    usage := some { prompt_tokens := 10, completion_tokens := 5 } }

/-- An environment whose model backend requests a `get_order` call on every
round trip. -/
def loopEnv : AgentEnv :=
  { settings := testSettings
    systemPrompt := "sys"
    emailContext := fun _ _ _ _ => "ctx"
    chat := fun _ => orderCallResponse
    kbTool := okTool
    orderTool := okTool
    fulfillmentTool := okTool
    customerOrdersTool := okTool
    escEnv := escEnvOk }

/-- A model response requesting one well-formed `escalate_to_human` call. -/
def escalateCallResponse : ChatResponse :=
  { message :=
      { content := none
        tool_calls := [ToolCall.mk "call-1" "escalate_to_human"
          (some (Json.obj [("reason", Json.str "customer is upset"),
            ("priority", Json.str "high"),
            ("customer_email", Json.str "cust@example.com"),
            ("summary", Json.str "upset customer")]))] }
    usage := some { prompt_tokens := 10, completion_tokens := 5 } }

/-- An environment whose model backend immediately requests an escalation. -/
def escalateEnv : AgentEnv := { loopEnv with chat := fun _ => escalateCallResponse }

/-- An environment whose persistence write fails. -/
def failDbEnv : AgentEnv := { loopEnv with escEnv := escEnvFail }

/-- A classification that does not trigger immediate escalation. -/
def plainClassification : ClassificationResult :=
  { intent := Intent.general_inquiry, complexity := Complexity.medium, confidence := Rat.divInt 9 10
    requires_order_lookup := false, requires_knowledge_base := true
    suggested_tools := ["search_knowledge_base"], reasoning := "ok" }

/-- A classification that triggers immediate escalation. -/
def escClassification : ClassificationResult :=
  { intent := Intent.escalation_request, complexity := Complexity.medium, confidence := Rat.divInt 9 10
    requires_order_lookup := false, requires_knowledge_base := true
    suggested_tools := [], reasoning := "wants supervisor" }

/-- The execution record produced by the escalation requested in
`escalateCallResponse` against `escEnvOk`. -/
def c7Record : ExecRecord :=
  { tool := "escalate_to_human"
    args := Json.obj [("reason", Json.str "customer is upset"),
      ("priority", Json.str "high"),
      ("customer_email", Json.str "cust@example.com"),
      ("summary", Json.str "upset customer")]
    result := escalateRun escEnvOk "customer is upset" "high" "cust@example.com"
      "upset customer" none }

/-- A parsed classifier response whose intent value is outside the
enumeration. -/
def c2BadParse : Json := Json.obj [("intent", Json.str "urgent_help")]

/-- A knowledge-base row whose similarity score is below the default
threshold. -/
def lowScoreResult : RAGResult :=
  { id := "kb-1", content := "returns take 30 days", category := "policy"
    title := none, score := Rat.divInt 1 10, metadata := Json.null }

/-! ## Theorems -/

/-- C1: `should_escalate` returns true exactly when the intent is
`escalation_request`, or the intent is `complaint` with complex complexity,
or the confidence is below 0.5; on every other classification it returns
false. -/
theorem c1_should_escalate_iff (c : ClassificationResult) :
    should_escalate c = true ↔
      (c.intent = Intent.escalation_request ∨
        (c.intent = Intent.complaint ∧ c.complexity = Complexity.complex) ∨
        c.confidence < 1/2) := by
  have hb : (Rat.divInt 1 2 : ℚ) = 1/2 := by norm_num [Rat.divInt_eq_div]
  unfold should_escalate
  rw [hb]
  split_ifs with h1 h2 h3 <;> simp_all

/-- C4: the tier returned by `get_model_config` is the tier table at the
effective complexity, whose rank is at least the rank of the requested
complexity; every entry of the override table is the complex tier; and for
an intent without an override (or no intent) the requested complexity is
returned unchanged. -/
theorem c4_router_never_downgrades (st : ModelSettings) (c : Complexity)
    (i : Option Intent) :
    get_model_config st c i = mkTiers st (routedComplexity c i) ∧
    complexity_rank c ≤ complexity_rank (routedComplexity c i) ∧
    (∀ j eff, intentOverride j = some eff → eff = Complexity.complex) ∧
    (∀ j, i = some j → intentOverride j = none → routedComplexity c i = c) ∧
    routedComplexity c none = c := by
  refine ⟨rfl, ?_, ?_, ?_, rfl⟩
  · rcases i with _ | j
    · exact Nat.le_refl _
    · cases j <;> cases c <;> decide
  · intro j eff h
    cases j <;> simp [intentOverride] at h <;> exact h.symm
  · intro j hj hov
    subst hj
    simp [routedComplexity, hov]

/-- Witness for C4 at concrete inputs: the complaint override raises the
simple tier, and an intent without an override leaves it unchanged. -/
theorem c4_router_never_downgrades_witness :
    complexity_rank Complexity.simple ≤
      complexity_rank (routedComplexity Complexity.simple (some Intent.complaint)) ∧
    routedComplexity Complexity.simple (some Intent.order_status) = Complexity.simple :=
  ⟨(c4_router_never_downgrades testSettings Complexity.simple (some Intent.complaint)).2.1,
   (c4_router_never_downgrades testSettings Complexity.simple
      (some Intent.order_status)).2.2.2.1 Intent.order_status rfl rfl⟩

/-- C5: `search_with_threshold` equals `search` at the same parameters
filtered to entries scoring at least the threshold; it is a sublist (subset
in the same relative order) of the `search` output, every surviving entry
clears the threshold, and when nothing clears the bar the result is the
empty list. -/
theorem c5_search_with_threshold_filters
    (search : String → Option String → Option ℕ → List RAGResult)
    (thr0 : ℚ) (query : String) (category : Option String)
    (threshold : Option ℚ) (limit : Option ℕ) :
    search_with_threshold search thr0 query category threshold limit
      = (search query category limit).filter
          (fun r => threshold.getD thr0 ≤ r.score) ∧
    (search_with_threshold search thr0 query category threshold limit).Sublist
      (search query category limit) ∧
    (∀ r ∈ search_with_threshold search thr0 query category threshold limit,
      threshold.getD thr0 ≤ r.score) ∧
    ((∀ r ∈ search query category limit, r.score < threshold.getD thr0) →
      search_with_threshold search thr0 query category threshold limit = []) := by
  refine ⟨rfl, List.filter_sublist _, ?_, ?_⟩
  · intro r hr
    have := List.mem_filter.1 hr
    exact of_decide_eq_true this.2
  · intro h
    unfold search_with_threshold
    rw [List.filter_eq_nil_iff]
    intro a ha
    simp only [decide_eq_true_eq]
    exact not_le.2 (h a ha)

/-- Witness for C5: with one stored entry scoring 0.1 against the default
threshold 0.7, the thresholded search returns the empty list. -/
theorem c5_search_with_threshold_filters_witness :
    search_with_threshold (fun _ _ _ => [lowScoreResult]) (Rat.divInt 7 10)
      "return policy" none none none = [] :=
  (c5_search_with_threshold_filters (fun _ _ _ => [lowScoreResult]) (Rat.divInt 7 10)
    "return policy" none none none).2.2.2
    (by
      intro r hr
      rw [List.mem_singleton.1 hr]
      decide)

/-- C6: executing an unregistered tool name returns a failure `ToolResult`
carrying a not-found error message, and never raises (the result is always
`Except.ok`). -/
theorem c6_execute_unknown_tool (reg : ToolRegistry) (name : String) (kwargs : Json)
    (h : ToolRegistry.get reg name = none) :
    ToolRegistry.execute reg name kwargs = Except.ok
      { success := false, data := none
        error := some ("Tool " ++ sq ++ name ++ sq ++ " not found") } := by
  unfold ToolRegistry.execute
  rw [h]

/-- Witness for C6: the agent registry holds no tool named "send_refund". -/
theorem c6_execute_unknown_tool_witness :
    ToolRegistry.execute (mkAgentRegistry loopEnv) "send_refund" (Json.obj []) = Except.ok
      { success := false, data := none
        error := some ("Tool " ++ sq ++ "send_refund" ++ sq ++ " not found") } :=
  c6_execute_unknown_tool (mkAgentRegistry loopEnv) "send_refund" (Json.obj []) rfl

/-- C9: `get_order` matches on order numbers normalised by stripping leading
hash marks and trimming whitespace, so the three spellings of order 12345
give the same result on every order store. -/
theorem c9_get_order_normalizes (orders : List Order) :
    get_order orders "#12345" = get_order orders "12345" ∧
    get_order orders "12345" = get_order orders " 12345 " := by
  have key : ∀ a b : String,
      normalize_order_number a = normalize_order_number b →
      get_order orders a = get_order orders b := by
    intro a b hab
    unfold get_order
    rw [hab]
  exact ⟨key _ _ (by decide), key _ _ (by decide)⟩

/-- C2 counterexample: a response that parses as JSON but carries the
out-of-enumeration intent value "urgent_help" makes `classify` propagate a
`ValueError` instead of returning the documented safe default. -/
theorem c2_classify_counterexample :
    classify (some c2BadParse) =
      Except.error ("ValueError: " ++ sq ++ "urgent_help" ++ sq ++ " is not a valid Intent") ∧
    classify (some c2BadParse) ≠ Except.ok defaultClassification := by
  constructor
  · rfl
  · intro h
    exact Except.noConfusion h

/-- A string accepted by the `Intent` enum constructor is the value of the
member it returns. -/
theorem intentFromString_eq_some {s : String} {i : Intent}
    (h : Intent.fromString s = some i) : s = i.value := by
  unfold Intent.fromString at h
  split_ifs at h <;>
    first
      | exact Option.noConfusion h
      | (injection h with h2; subst h2; assumption)

/-- A string accepted by the `Complexity` enum constructor is the value of
the member it returns. -/
theorem complexityFromString_eq_some {s : String} {cx : Complexity}
    (h : Complexity.fromString s = some cx) : s = cx.value := by
  unfold Complexity.fromString at h
  split_ifs at h <;>
    first
      | exact Option.noConfusion h
      | (injection h with h2; subst h2; assumption)

/-- The `Intent` enum constructor succeeds only on the string value of the
member it returns. -/
theorem intentOfJson_ok {j : Json} {i : Intent}
    (h : intentOfJson j = Except.ok i) : j = Json.str i.value := by
  unfold intentOfJson at h
  rcases j with _ | b | q | s | el | fl
  · exact Except.noConfusion h
  · exact Except.noConfusion h
  · exact Except.noConfusion h
  · dsimp only at h
    rcases hfs : Intent.fromString s with _ | i0 <;> rw [hfs] at h
    · exact Except.noConfusion h
    · injection h with h2
      subst h2
      rw [intentFromString_eq_some hfs]
  · exact Except.noConfusion h
  · exact Except.noConfusion h

/-- The `Complexity` enum constructor succeeds only on the string value of
the member it returns. -/
theorem complexityOfJson_ok {j : Json} {cx : Complexity}
    (h : complexityOfJson j = Except.ok cx) : j = Json.str cx.value := by
  unfold complexityOfJson at h
  rcases j with _ | b | q | s | el | fl
  · exact Except.noConfusion h
  · exact Except.noConfusion h
  · exact Except.noConfusion h
  · dsimp only at h
    rcases hfs : Complexity.fromString s with _ | c0 <;> rw [hfs] at h
    · exact Except.noConfusion h
    · injection h with h2
      subst h2
      rw [complexityFromString_eq_some hfs]
  · exact Except.noConfusion h
  · exact Except.noConfusion h

/-- Every `Intent` member round-trips through the enum constructor. -/
theorem Intent.fromString_value (i : Intent) :
    Intent.fromString i.value = some i := by
  cases i <;> rfl

/-- C2 amended: `classify` returns the documented safe default exactly on
JSON parse failure; when the response parses but its intent field holds a
value outside the fixed enumeration, or its complexity field holds a value
outside the fixed enumeration (with the intent field valid or absent),
`classify` raises a `ValueError` (propagates an error) instead of
returning the default. -/
theorem c2_classify_amended :
    classify none = Except.ok defaultClassification ∧
    (∀ fields j, objLookup fields "intent" = some j →
      (∀ i : Intent, j ≠ Json.str i.value) →
      ∃ e, classify (some (Json.obj fields)) = Except.error e) ∧
    (∀ fields j,
      (objLookup fields "intent" = none ∨
        ∃ i : Intent, objLookup fields "intent" = some (Json.str i.value)) →
      objLookup fields "complexity" = some j →
      (∀ cx : Complexity, j ≠ Json.str cx.value) →
      ∃ e, classify (some (Json.obj fields)) = Except.error e) := by
  refine ⟨rfl, ?_, ?_⟩
  · intro fields j hlook hout
    have hg : (Json.obj fields).getD "intent" (Json.str "general_inquiry") = j := by
      simp [Json.getD, hlook]
    rcases hi : intentOfJson j with e0 | i0
    · refine ⟨e0, ?_⟩
      simp only [classify, hg, hi, Bind.bind, Except.bind]
    · exact absurd (intentOfJson_ok hi) (hout i0)
  · intro fields j hint hlookc hout
    have hgC : (Json.obj fields).getD "complexity" (Json.str "medium") = j := by
      simp [Json.getD, hlookc]
    have hI : ∃ iv, intentOfJson ((Json.obj fields).getD "intent"
        (Json.str "general_inquiry")) = Except.ok iv := by
      rcases hint with hnone | ⟨i, hsome⟩
      · refine ⟨Intent.general_inquiry, ?_⟩
        simp [Json.getD, hnone, intentOfJson, Intent.fromString]
      · refine ⟨i, ?_⟩
        simp [Json.getD, hsome, intentOfJson, Intent.fromString_value i]
    rcases hI with ⟨iv, hIv⟩
    rcases hc : complexityOfJson j with ec | cx
    · refine ⟨ec, ?_⟩
      simp only [classify, hIv, hgC, hc, Bind.bind, Except.bind]
    · exact absurd (complexityOfJson_ok hc) (hout cx)

/-- Witness for C2 amended: parse failure yields the default, the invalid
intent value "spam" yields an error, and the invalid complexity value
"weird" (with the intent field absent) yields an error. -/
theorem c2_classify_amended_witness :
    classify none = Except.ok defaultClassification ∧
    (∃ e, classify (some (Json.obj [("intent", Json.str "spam")])) =
      Except.error e) ∧
    (∃ e, classify (some (Json.obj [("complexity", Json.str "weird")])) =
      Except.error e) :=
  ⟨c2_classify_amended.1,
   c2_classify_amended.2.1 [("intent", Json.str "spam")] (Json.str "spam") rfl
     (by intro i h; cases i <;> simp [Intent.value] at h),
   c2_classify_amended.2.2 [("complexity", Json.str "weird")] (Json.str "weird")
     (Or.inl rfl) rfl
     (by intro cx h; cases cx <;> simp [Complexity.value] at h)⟩

/-- The keyword binding of the immediate escalation call always succeeds and
reaches the tool body with the synthesized reason, priority and summary. -/
theorem escalateTool_immediateArgs (env : EscalationDbEnv) (c : ClassificationResult)
    (sender_email subject body : String) :
    escalateToHumanTool env (immediateEscalationArgs c sender_email subject body) =
      Except.ok (escalateRun env ("Immediate escalation: " ++ c.intent.value)
        (if c.intent.value = "complaint" then "high" else "medium") sender_email
        ("Subject: " ++ subject ++ "\n\nBody: " ++ body.take 500) none) := rfl

/-- The string comparison `intent.value == "complaint"` agrees with equality
on the `Intent` enumeration. -/
theorem immediate_priority (c : ClassificationResult) :
    (if c.intent.value = "complaint" then "high" else "medium") =
      (if c.intent = Intent.complaint then "high" else "medium") := by
  obtain ⟨i, comp, conf, rol, rkb, tools, reas⟩ := c
  cases i <;> rfl

/-- C8: when the classification triggers `should_escalate`, `process_email`
returns with zero chat-completion calls and zero token counters, escalated
with `tools_used = ["escalate_to_human"]`, having executed exactly one
escalation call whose priority argument is "high" for complaint intent and
"medium" otherwise. -/
theorem c8_immediate_escalation (env : AgentEnv) (c : ClassificationResult)
    (subject body sender_email : String) (sender_name : Option String)
    (h : should_escalate c = true) :
    (process_email env c subject body sender_email sender_name).chatCalls = 0 ∧
    (∃ r, (process_email env c subject body sender_email sender_name).result =
        Except.ok r ∧
      r.escalated = true ∧ r.tools_used = ["escalate_to_human"] ∧
      r.tokens_input = 0 ∧ r.tokens_output = 0) ∧
    (process_email env c subject body sender_email sender_name).executed =
      [⟨"escalate_to_human", immediateEscalationArgs c sender_email subject body,
        escalateRun env.escEnv ("Immediate escalation: " ++ c.intent.value)
          (if c.intent = Intent.complaint then "high" else "medium") sender_email
          ("Subject: " ++ subject ++ "\n\nBody: " ++ body.take 500) none⟩] ∧
    (immediateEscalationArgs c sender_email subject body).getD "priority" Json.null =
      Json.str (if c.intent = Intent.complaint then "high" else "medium") := by
  have hpr := immediate_priority c
  obtain ⟨stg, sp, ec, chat, kb, ord, ful, cust, escE⟩ := env
  obtain ⟨now, db⟩ := escE
  unfold process_email
  rw [if_pos h, ← hpr]
  rcases db with _ | x
  · exact ⟨rfl, ⟨_, rfl, rfl, rfl, rfl, rfl⟩, rfl, rfl⟩
  · rcases x with e | eid
    · exact ⟨rfl, ⟨_, rfl, rfl, rfl, rfl, rfl⟩, rfl, rfl⟩
    · exact ⟨rfl, ⟨_, rfl, rfl, rfl, rfl, rfl⟩, rfl, rfl⟩

/-- Witness for C8 on a concrete escalation-request classification. -/
theorem c8_immediate_escalation_witness :
    (process_email loopEnv escClassification "Complaint" "I demand a supervisor"
      "cust@example.com" none).chatCalls = 0 ∧
    Except.map AgentResponse.escalated (process_email loopEnv escClassification
      "Complaint" "I demand a supervisor" "cust@example.com" none).result =
      Except.ok true ∧
    Except.map AgentResponse.tools_used (process_email loopEnv escClassification
      "Complaint" "I demand a supervisor" "cust@example.com" none).result =
      Except.ok ["escalate_to_human"] ∧
    Except.map AgentResponse.tokens_input (process_email loopEnv escClassification
      "Complaint" "I demand a supervisor" "cust@example.com" none).result =
      Except.ok 0 ∧
    Except.map AgentResponse.tokens_output (process_email loopEnv escClassification
      "Complaint" "I demand a supervisor" "cust@example.com" none).result =
      Except.ok 0 := by
  obtain ⟨h1, ⟨r, hr, he, ht, hi, ho⟩, -, -⟩ :=
    c8_immediate_escalation loopEnv escClassification "Complaint"
      "I demand a supervisor" "cust@example.com" none rfl
  refine ⟨h1, ?_, ?_, ?_, ?_⟩ <;> rw [hr] <;> simp [Except.map, he, ht, hi, ho]

/-- C10: even when the escalation tool fails on the immediate-escalation
path (the persistence write raised, so its `ToolResult` has
`success = false`), `process_email` still returns escalated with the fixed
fallback message as response text. -/
theorem c10_failed_escalation_still_escalates (env : AgentEnv)
    (c : ClassificationResult) (subject body sender_email : String)
    (sender_name : Option String)
    (h : should_escalate c = true) (e : String)
    (hdb : env.escEnv.db = some (Except.error e)) :
    (escalateRun env.escEnv ("Immediate escalation: " ++ c.intent.value)
      (if c.intent.value = "complaint" then "high" else "medium") sender_email
      ("Subject: " ++ subject ++ "\n\nBody: " ++ body.take 500) none).success = false ∧
    (∃ r, (process_email env c subject body sender_email sender_name).result =
        Except.ok r ∧
      r.escalated = true ∧
      r.response_text = "Your request has been escalated to our support team.") := by
  obtain ⟨stg, sp, ec, chat, kb, ord, ful, cust, escE⟩ := env
  obtain ⟨now, db⟩ := escE
  simp only at hdb
  subst hdb
  unfold process_email
  rw [if_pos h]
  exact ⟨rfl, ⟨_, rfl, rfl, rfl⟩⟩

/-- Witness for C10: a failing database write on an immediate escalation
still produces the escalated fallback response. -/
theorem c10_failed_escalation_still_escalates_witness :
    Except.map AgentResponse.escalated (process_email failDbEnv escClassification
      "Complaint" "I demand a supervisor" "cust@example.com" none).result =
      Except.ok true ∧
    Except.map AgentResponse.response_text (process_email failDbEnv escClassification
      "Complaint" "I demand a supervisor" "cust@example.com" none).result =
      Except.ok "Your request has been escalated to our support team." := by
  obtain ⟨-, r, hr, he, htext⟩ :=
    c10_failed_escalation_still_escalates failDbEnv escClassification "Complaint"
      "I demand a supervisor" "cust@example.com" none rfl "db down" rfl
  refine ⟨?_, ?_⟩ <;> rw [hr] <;> simp [Except.map, he, htext]

/-- Executing a batch of tool calls never issues a chat-completion call. -/
theorem runBatch_chatCalls (reg : ToolRegistry) (tcs : List ToolCall) :
    ∀ st : LoopState, ((runBatch reg tcs st).1).chatCalls = st.chatCalls := by
  induction tcs with
  | nil => intro st; rfl
  | cons tc rest ih =>
    intro st
    unfold runBatch
    split
    · split
      · rfl
      · split
        · split <;> rfl
        · exact ih _
    · rfl

/-- Each loop iteration issues exactly one chat-completion call, so the
loop issues at most `fuel` of them. -/
theorem agentLoop_chatCalls_le (env : AgentEnv) (reg : ToolRegistry) :
    ∀ (fuel : ℕ) (st : LoopState),
      ((agentLoop env reg fuel st).1).chatCalls ≤ st.chatCalls + fuel := by
  intro fuel
  induction fuel with
  | zero => intro st; simp [agentLoop]
  | succ fuel ih =>
    intro st
    unfold agentLoop
    split
    · show st.chatCalls + 1 ≤ st.chatCalls + (fuel + 1)
      omega
    · split
      · rename_i st3 heq
        have hb := runBatch_chatCalls reg ((env.chat st.chatCalls).message.tool_calls)
          (noteAssistant (trackUsage st (env.chat st.chatCalls))
            (env.chat st.chatCalls).message)
        rw [heq] at hb
        have h4 : st3.chatCalls = st.chatCalls + 1 := hb
        have h5 := ih st3
        omega
      · rename_i st3 e heq
        have hb := runBatch_chatCalls reg ((env.chat st.chatCalls).message.tool_calls)
          (noteAssistant (trackUsage st (env.chat st.chatCalls))
            (env.chat st.chatCalls).message)
        rw [heq] at hb
        have h4 : st3.chatCalls = st.chatCalls + 1 := hb
        show st3.chatCalls ≤ st.chatCalls + (fuel + 1)
        omega
      · rename_i st3 m heq
        have hb := runBatch_chatCalls reg ((env.chat st.chatCalls).message.tool_calls)
          (noteAssistant (trackUsage st (env.chat st.chatCalls))
            (env.chat st.chatCalls).message)
        rw [heq] at hb
        have h4 : st3.chatCalls = st.chatCalls + 1 := hb
        show st3.chatCalls ≤ st.chatCalls + (fuel + 1)
        omega

/-- When every model response requests at least one tool call, the loop
never produces a final-text outcome. -/
theorem agentLoop_no_finalText (env : AgentEnv) (reg : ToolRegistry)
    (H : ∀ i, (env.chat i).message.tool_calls ≠ []) :
    ∀ (fuel : ℕ) (st : LoopState) (t : String),
      (agentLoop env reg fuel st).2 ≠ LoopOutcome.finalText t := by
  intro fuel
  induction fuel with
  | zero => intro st t h; exact LoopOutcome.noConfusion h
  | succ fuel ih =>
    intro st t
    unfold agentLoop
    split
    · rename_i hempty
      exact absurd (List.isEmpty_iff.1 hempty) (H st.chatCalls)
    · split
      · exact ih _ _
      · intro h; exact LoopOutcome.noConfusion h
      · intro h; exact LoopOutcome.noConfusion h

/-- On the immediate-escalation path the run makes no chat-completion call
and every successful result is escalated. -/
theorem process_email_immediate_core (env : AgentEnv) (c : ClassificationResult)
    (subject body sender_email : String) (sender_name : Option String)
    (h : should_escalate c = true) :
    (process_email env c subject body sender_email sender_name).chatCalls = 0 ∧
    ∀ r, (process_email env c subject body sender_email sender_name).result =
      Except.ok r → r.escalated = true := by
  obtain ⟨stg, sp, ec, chat, kb, ord, ful, cust, escE⟩ := env
  obtain ⟨now, db⟩ := escE
  unfold process_email
  rw [if_pos h]
  rcases db with _ | x
  · exact ⟨rfl, fun r hr => by injection hr with h2; rw [← h2]⟩
  · rcases x with e | eid
    · exact ⟨rfl, fun r hr => by injection hr with h2; rw [← h2]⟩
    · exact ⟨rfl, fun r hr => by injection hr with h2; rw [← h2]⟩

/-- C3: every `process_email` run issues at most 5 chat-completion calls,
regardless of how many tool calls the model requests; and when the model
never produces a final answer (every response requests tool calls), a run
that completes without escalating returns the fixed exhaustion fallback
message. -/
theorem c3_iteration_bound (env : AgentEnv) (c : ClassificationResult)
    (subject body sender_email : String) (sender_name : Option String) :
    (process_email env c subject body sender_email sender_name).chatCalls ≤ 5 ∧
    ((∀ i, (env.chat i).message.tool_calls ≠ []) →
      ∀ r, (process_email env c subject body sender_email sender_name).result =
        Except.ok r → r.escalated = false →
        r.response_text = exhaustedMessage) := by
  constructor
  · by_cases hse : should_escalate c = true
    · rw [(process_email_immediate_core env c subject body sender_email sender_name hse).1]
      omega
    · unfold process_email
      rw [if_neg hse]
      have hle := agentLoop_chatCalls_le env (mkAgentRegistry env) 5
        (loopInitState env subject body sender_email sender_name)
      rcases hloop : agentLoop env (mkAgentRegistry env) 5
        (loopInitState env subject body sender_email sender_name) with ⟨st, out⟩
      rw [hloop] at hle
      have hle2 : st.chatCalls ≤ 5 := by simpa using hle
      cases out <;> exact hle2
  · intro H r hr hre
    by_cases hse : should_escalate c = true
    · have := (process_email_immediate_core env c subject body sender_email
        sender_name hse).2 r hr
      rw [this] at hre
      exact Bool.noConfusion hre
    · unfold process_email at hr
      rw [if_neg hse] at hr
      rcases hloop : agentLoop env (mkAgentRegistry env) 5
        (loopInitState env subject body sender_email sender_name) with ⟨st, out⟩
      rw [hloop] at hr
      cases out with
      | finalText t =>
        exact absurd (congrArg Prod.snd hloop)
          (agentLoop_no_finalText env (mkAgentRegistry env) H 5 _ t)
      | exhausted =>
        injection hr with h2
        rw [← h2]
      | escalatedVia e =>
        injection hr with h2
        rw [← h2] at hre
        exact Bool.noConfusion hre
      | crashed m =>
        exact Except.noConfusion hr

/-- Witness for C3: a model that requests a `get_order` call on every round
trip exhausts the 5-iteration bound and yields the fallback message. -/
theorem c3_iteration_bound_witness :
    (process_email loopEnv plainClassification "Where is my order"
      "order 12345" "cust@example.com" none).chatCalls ≤ 5 ∧
    Except.map AgentResponse.response_text
      (process_email loopEnv plainClassification "Where is my order"
        "order 12345" "cust@example.com" none).result =
      Except.ok exhaustedMessage := by
  constructor
  · exact (c3_iteration_bound loopEnv plainClassification "Where is my order"
      "order 12345" "cust@example.com" none).1
  · rfl

/-- In the agent registry, a successful result of the `escalate_to_human`
tool always carries a JSON-object payload (the confirmation dict built by the
tool body). -/
theorem mkAgentRegistry_escalate (env : AgentEnv) :
    ∀ (args : Json) (result : ToolResult),
      ToolRegistry.execute (mkAgentRegistry env) "escalate_to_human" args =
        Except.ok result →
      result.success = true →
      ∃ fields, result.data = some (Json.obj fields) := by
  intro args result hex hsucc
  have hget : ToolRegistry.get (mkAgentRegistry env) "escalate_to_human" =
      some (escalateToHumanTool env.escEnv) := rfl
  unfold ToolRegistry.execute at hex
  rw [hget] at hex
  unfold escalateToHumanTool at hex
  rcases args with _ | b | q | s | elems | fields
  · exact Except.noConfusion hex
  · exact Except.noConfusion hex
  · exact Except.noConfusion hex
  · exact Except.noConfusion hex
  · exact Except.noConfusion hex
  · dsimp only at hex
    rcases hra : objLookup fields "reason" with _ | vr <;> rw [hra] at hex
    · exact Except.noConfusion hex
    rcases hrp : objLookup fields "priority" with _ | vp <;> rw [hrp] at hex
    · exact Except.noConfusion hex
    rcases hrc : objLookup fields "customer_email" with _ | vc <;> rw [hrc] at hex
    · exact Except.noConfusion hex
    rcases hrs : objLookup fields "summary" with _ | vs <;> rw [hrs] at hex
    · exact Except.noConfusion hex
    injection hex with h2
    rw [← h2] at hsucc ⊢
    rcases hdb : env.escEnv.db with _ | x
    · simp only [escalateRun, hdb]
      exact ⟨_, rfl⟩
    · rcases x with e | eid
      · rw [show (escalateRun env.escEnv vr.pyStr vp.pyStr vc.pyStr vs.pyStr
            (match objLookup fields "interaction_id" with
             | some Json.null => none
             | some v => some v.pyStr
             | none => none)).success = false by
              simp only [escalateRun, hdb]] at hsucc
        exact Bool.noConfusion hsucc
      · simp only [escalateRun, hdb]
        exact ⟨_, rfl⟩

/-- A successful `escalate_to_human` call inside a batch is always the last
executed call of the run, and the batch signals escalation. -/
theorem runBatch_inv (reg : ToolRegistry)
    (HR : ∀ args result,
      ToolRegistry.execute reg "escalate_to_human" args = Except.ok result →
      result.success = true → ∃ fields, result.data = some (Json.obj fields)) :
    ∀ (tcs : List ToolCall) (st : LoopState),
      (∀ rec ∈ st.executed, isSuccEsc rec = false) →
      batchInv (runBatch reg tcs st) := by
  intro tcs
  induction tcs with
  | nil => intro st hst; exact hst
  | cons tc rest ih =>
    intro st hst
    unfold runBatch
    split
    · rename_i fields harg
      split
      · exact hst
      · rename_i result hex
        split
        · rename_i hb
          split
          · rename_i dataFields hdata
            exact ⟨st.executed, ⟨tc.name, Json.obj fields, result⟩, rfl, hst,
              by simp [isSuccEsc, hb.1, hb.2]⟩
          · rename_i hnotobj
            rcases HR (Json.obj fields) result (by rw [← hb.1]; exact hex) hb.2
              with ⟨f, hdf⟩
            exact absurd hdf (hnotobj f)
        · rename_i hb
          have hnew : isSuccEsc ⟨tc.name, Json.obj fields, result⟩ = false := by
            cases h2 : isSuccEsc ⟨tc.name, Json.obj fields, result⟩
            · rfl
            · exfalso
              simp only [isSuccEsc, Bool.and_eq_true, beq_iff_eq] at h2
              exact hb h2
          apply ih
          intro rec hrec
          rcases List.mem_append.1 hrec with hmem | hmem
          · exact hst rec hmem
          · rw [List.mem_singleton.1 hmem]
            exact hnew
    · exact hst

/-- A successful escalation anywhere in the loop is the final executed call,
and the loop outcome is the escalated early return. -/
theorem agentLoop_inv (env : AgentEnv) (reg : ToolRegistry)
    (HR : ∀ args result,
      ToolRegistry.execute reg "escalate_to_human" args = Except.ok result →
      result.success = true → ∃ fields, result.data = some (Json.obj fields)) :
    ∀ (fuel : ℕ) (st : LoopState),
      (∀ rec ∈ st.executed, isSuccEsc rec = false) →
      loopInv (agentLoop env reg fuel st) := by
  intro fuel
  induction fuel with
  | zero => intro st hst; exact hst
  | succ fuel ih =>
    intro st hst
    unfold agentLoop
    split
    · exact hst
    · split
      · rename_i st3 heq
        have hbi := runBatch_inv reg HR ((env.chat st.chatCalls).message.tool_calls)
          (noteAssistant (trackUsage st (env.chat st.chatCalls))
            (env.chat st.chatCalls).message) hst
        rw [heq] at hbi
        exact ih st3 hbi
      · rename_i st3 e heq
        have hbi := runBatch_inv reg HR ((env.chat st.chatCalls).message.tool_calls)
          (noteAssistant (trackUsage st (env.chat st.chatCalls))
            (env.chat st.chatCalls).message) hst
        rw [heq] at hbi
        exact hbi
      · rename_i st3 m heq
        have hbi := runBatch_inv reg HR ((env.chat st.chatCalls).message.tool_calls)
          (noteAssistant (trackUsage st (env.chat st.chatCalls))
            (env.chat st.chatCalls).message) hst
        rw [heq] at hbi
        exact hbi

/-- C7: on the tool-calling path, if the executed-call record of a run
contains a successful `escalate_to_human` call, then no tool call was
executed after it (it is the last executed call, so the remaining calls of
its batch were skipped) and the run returned immediately with
`escalated = true`. -/
theorem c7_escalation_short_circuit (env : AgentEnv) (c : ClassificationResult)
    (subject body sender_email : String) (sender_name : Option String)
    (hse : should_escalate c = false)
    (pre post : List ExecRecord) (rec : ExecRecord)
    (hsplit : (process_email env c subject body sender_email sender_name).executed =
      pre ++ rec :: post)
    (hname : rec.tool = "escalate_to_human")
    (hsucc : rec.result.success = true) :
    post = [] ∧
    ∃ r, (process_email env c subject body sender_email sender_name).result =
      Except.ok r ∧ r.escalated = true := by
  have hrec : isSuccEsc rec = true := by simp [isSuccEsc, hname, hsucc]
  have hne : ¬(should_escalate c = true) := by simp [hse]
  have hinv := agentLoop_inv env (mkAgentRegistry env) (mkAgentRegistry_escalate env) 5
    (loopInitState env subject body sender_email sender_name)
    (by intro r hr; exact absurd hr (List.not_mem_nil r))
  unfold process_email at hsplit ⊢
  rw [if_neg hne] at hsplit ⊢
  rcases hloop : agentLoop env (mkAgentRegistry env) 5
      (loopInitState env subject body sender_email sender_name) with ⟨st, out⟩
  rw [hloop] at hsplit hinv
  cases out with
  | finalText t =>
    exfalso
    have hinv2 : ∀ r ∈ st.executed, isSuccEsc r = false := hinv
    have hsplit2 : st.executed = pre ++ rec :: post := hsplit
    have hmem : rec ∈ st.executed := by
      rw [hsplit2]
      exact List.mem_append_right _ (List.mem_cons_self _ _)
    rw [hinv2 rec hmem] at hrec
    exact Bool.noConfusion hrec
  | exhausted =>
    exfalso
    have hinv2 : ∀ r ∈ st.executed, isSuccEsc r = false := hinv
    have hsplit2 : st.executed = pre ++ rec :: post := hsplit
    have hmem : rec ∈ st.executed := by
      rw [hsplit2]
      exact List.mem_append_right _ (List.mem_cons_self _ _)
    rw [hinv2 rec hmem] at hrec
    exact Bool.noConfusion hrec
  | crashed m =>
    exfalso
    have hinv2 : ∀ r ∈ st.executed, isSuccEsc r = false := hinv
    have hsplit2 : st.executed = pre ++ rec :: post := hsplit
    have hmem : rec ∈ st.executed := by
      rw [hsplit2]
      exact List.mem_append_right _ (List.mem_cons_self _ _)
    rw [hinv2 rec hmem] at hrec
    exact Bool.noConfusion hrec
  | escalatedVia e =>
    refine ⟨?_, ⟨_, rfl, rfl⟩⟩
    obtain ⟨pre2, last2, hsp2, hpre2, hlast2⟩ :
        ∃ pre2 last2, st.executed = pre2 ++ [last2] ∧
          (∀ r ∈ pre2, isSuccEsc r = false) ∧ isSuccEsc last2 = true := hinv
    have hsplit2 : st.executed = pre ++ rec :: post := hsplit
    cases hpost : post with
    | nil => rfl
    | cons p ps =>
      exfalso
      rw [hpost] at hsplit2
      have heq2 : pre ++ rec :: p :: ps = pre2 ++ [last2] := hsplit2.symm.trans hsp2
      have hmem2 : rec ∈ pre2 := by
        have hdl := congrArg List.dropLast heq2
        rw [List.dropLast_concat] at hdl
        rw [← hdl]
        rw [List.dropLast_append_of_ne_nil]
        · exact List.mem_append_right _ (List.mem_cons_self _ _)
        · exact List.cons_ne_nil _ _
      rw [hpre2 rec hmem2] at hrec
      exact Bool.noConfusion hrec

/-- Witness for C7: a model that requests a well-formed escalation on its
first round trip yields an escalated run whose successful escalation is the
last executed call (nothing follows it). -/
theorem c7_escalation_short_circuit_witness :
    ([] : List ExecRecord) = [] ∧
    ∃ r, (process_email escalateEnv plainClassification "Angry" "very angry"
      "cust@example.com" none).result = Except.ok r ∧ r.escalated = true :=
  c7_escalation_short_circuit escalateEnv plainClassification "Angry" "very angry"
    "cust@example.com" none (by decide) [] [] c7Record rfl rfl rfl

end SupportAgent
